import Mathlib

/-!
Verification development for a bundler plugin that compiles Rust crates to
WebAssembly by orchestrating the external `cargo` / `wasm-pack` /
`wasm-bindgen` toolchains (source: `src/WASMbindgenAsset.js`).

The JavaScript source is shallowly embedded: string-munging helpers model the
exact JS string primitives used (`String.prototype.replace` with a string
pattern replaces only the first occurrence; the word-boundary regex split
splits at spaces immediately preceded by a word character; template literals
are concatenation).  String functions are implemented by structural recursion
over the underlying character lists so that every definition evaluates inside
the kernel.  Subprocess-spawning code is modelled by explicit state passing: a
`World` value says which `child_process.execFile` invocations succeed, and
each orchestration function returns the ordered list of exec events it
performed together with its outcome (`Except JsErr`, mirroring JavaScript
exceptions; thrown strings and exec failures are distinguished).  Node `path`
primitives that the plugin calls are modelled for POSIX-style inputs;
`path.relative`, whose output is host-dependent, is passed in as an explicit
function argument where its value matters.
-/

namespace WasmPlugin

/-! ## Character-list string primitives -/

/-- Split a character list at every occurrence of the separator character
(the separator is consumed), as JS `split` with a one-character string. -/
def charsSplitOn (sep : Char) (cur : List Char) : List Char → List (List Char)
  | [] => [cur.reverse]
  | c :: rest =>
    if c == sep then cur.reverse :: charsSplitOn sep [] rest
    else charsSplitOn sep (c :: cur) rest

/-- Model of JS `String.prototype.trim` (whitespace from both ends). -/
def charsTrim (l : List Char) : List Char :=
  ((l.dropWhile Char.isWhitespace).reverse.dropWhile Char.isWhitespace).reverse

/-- Model of `s.toLowerCase()` for the ASCII values the plugin compares
against (`Char.toLower` lowers exactly the ASCII uppercase letters). -/
def jsToLower (s : String) : String := String.mk (s.data.map Char.toLower)

/-- JS regex word character (`\w`, i.e. `[A-Za-z0-9_]`), as used by the `\b`
word boundary in the dependency-file split regex. -/
def isWordChar (c : Char) : Bool := c.isAlpha || c.isDigit || c == '_'

/-- Model of the dependency-file split regex (word boundary followed by a
space, applied globally): the regex matches a space whose immediately
preceding character is a word character; each such space is consumed as a
delimiter.  `prev` carries the previous character of the original string. -/
def splitBoundaryAux (prev : Option Char) (cur : List Char) : List Char → List (List Char)
  | [] => [cur.reverse]
  | c :: rest =>
    if c == ' ' && (prev.map isWordChar).getD false then
      cur.reverse :: splitBoundaryAux (some c) [] rest
    else
      splitBoundaryAux (some c) (c :: cur) rest

/-- Model of the JS `replace` of the two-character string backslash-space by
the empty string: `replace` with a string pattern rewrites only the FIRST
occurrence, so this deletes the first backslash-space pair (both characters)
and leaves every later occurrence untouched. -/
def dropFirstEscapedSpace : List Char → List Char
  | '\\' :: ' ' :: rest => rest
  | c :: rest => c :: dropFirstEscapedSpace rest
  | [] => []

/-- Model of the JS `replace` of a backslash by a forward slash: `replace`
with a string pattern rewrites only the FIRST backslash. -/
def replaceFirstBackslash : List Char → List Char
  | [] => []
  | c :: rest => if c == '\\' then '/' :: rest else c :: replaceFirstBackslash rest

/-- Model of the crate-name normalization (global regex replace of every
dash by an underscore): Rust converts `-` to `_` when outputting files. -/
def dashToUnderscore (s : String) : String :=
  String.mk (s.data.map (fun c => if c == '-' then '_' else c))

/-- Concatenate path components with slashes (used to model `path` results). -/
def joinComponents : List String → String
  | [] => ""
  | [x] => x
  | x :: xs => x ++ "/" ++ joinComponents xs

/-! ## Node `path` primitives (POSIX flavour, for the path shapes used here) -/

/-- The components of a path, splitting on the POSIX separator. -/
def pathComponents (p : String) : List String :=
  (charsSplitOn '/' [] p.data).map String.mk

/-- Model of `path.basename` for POSIX separators: the last non-empty
path component (trailing separators ignored). -/
def basename (p : String) : String :=
  match (pathComponents p).reverse.dropWhile (fun s => s == "") with
  | [] => ""
  | b :: _ => b

/-- Index of the last dot in a character list, if any. -/
def lastDotIdx (l : List Char) : Option Nat :=
  (l.foldl (fun (acc : Nat × Option Nat) c =>
    (acc.1 + 1, if c == '.' then some acc.1 else acc.2)) (0, none)).2

/-- Model of `path.extname`: the suffix of the basename from its last dot,
empty when there is no dot or the only dot is the leading character
(dotfiles have no extension). -/
def extname (p : String) : String :=
  let b := (basename p).data
  match lastDotIdx b with
  | none => ""
  | some 0 => ""
  | some i => String.mk (b.drop i)

/-- Model of `path.dirname` for POSIX separators. -/
def dirname (p : String) : String :=
  match (pathComponents p).dropLast with
  | [] => "."
  | [""] => "/"
  | parts => joinComponents parts

/-- Model of `path.join` for the already-normalized operands the plugin
joins (it never passes dot-dot segments or trailing separators to `join`). -/
def joinPath (a b : String) : String :=
  if a = "" then b else if b = "" then a else a ++ "/" ++ b

/-- Longest-common-prefix removal on path-component lists. -/
def dropCommon : List String → List String → List String × List String
  | a :: as, b :: bs => if a = b then dropCommon as bs else (a :: as, b :: bs)
  | as, bs => (as, bs)

/-- Model of POSIX `path.relative` for inputs that are already resolved
absolute paths (the host resolves relative operands against the process
working directory first; the plugin passes directory and output paths). -/
def posixRelative (fromDir toPath : String) : String :=
  let f := (pathComponents fromDir).filter (fun x => x != "")
  let t := (pathComponents toPath).filter (fun x => x != "")
  let (fs, ts) := dropCommon f t
  joinComponents (fs.map (fun _ => "..") ++ ts)

/-! ## Errors, events, environment -/

/-- A JavaScript exception as observed by the plugin's callers: either a
thrown string (all the plugin's own throws are plain strings), a rejected
`execFile` promise for a subprocess that exited non-zero or could not be
spawned, or a JSON parse failure on subprocess output. -/
inductive JsErr
  | thrown (s : String)
  | execFail (cmd : String) (args : List String)
  | jsonParseFail
deriving DecidableEq

/-- One `child_process.execFile` invocation: command, argument list, and
the working directory passed in the options (when any). -/
inductive Event
  | exec (cmd : String) (args : List String) (cwd : Option String)
deriving DecidableEq

/-- The two environment variables read by `buildOpts`. -/
structure Env where
  wasmPackProfileEnv : Option String
  nodeEnv : Option String

/-- The record returned by `buildOpts`. -/
structure BuildOpts where
  cargoTargetDirName : String
  cargoProfile : String
  wasmPackProfile : String
deriving DecidableEq

/-- The `this.options` fields the embedded code paths consult. -/
structure AssetOptions where
  target : String

/-- Result of the three `command-exists` probes in `parse` (a probe failure
is reported as absence, never an exception). -/
structure Avail where
  has_wasm_pack : Bool
  has_cargo : Bool
  has_wasmbindgen : Bool

/-- The external world the subprocesses run in: which exec invocations
succeed, the `target_directory` reported by a successful
`cargo metadata --format-version 1`, and whether its stdout parses as JSON. -/
structure World where
  execOk : String → List String → Bool
  targetDirectory : String
  metadataParseOk : Bool

/-- The constant `RUST_TARGET` from the source. -/
def RUST_TARGET : String := "wasm32-unknown-unknown"

/-! ## Mode resolution (`buildOpts`) -/

/-- The mutable pair `(inReleaseMode, wasmPackProfile)` computed by the two
switch statements in `buildOpts`: `WASM_PACK_PROFILE` is consulted first and
an unrecognized value throws; otherwise `NODE_ENV` is consulted and an
unrecognized value is silently ignored; with neither set the defaults
`(true, release)` stand. -/
def modeResolve (env : Env) : Except JsErr (Bool × String) :=
  match env.wasmPackProfileEnv with
  | some v =>
    let lv := jsToLower v
    if lv = "dev" ∨ lv = "debug" then .ok (false, "dev")
    else if lv = "release" then .ok (true, "release")
    else if lv = "profiling" then .ok (true, "profiling")
    else .error (.thrown (v ++ " (set by WASM_PACK_PROFILE) is not a recognized wasm-pack build profile"))
  | none =>
    match env.nodeEnv with
    | some v =>
      let lv := jsToLower v
      if lv = "dev" ∨ lv = "development" then .ok (false, "dev")
      else if lv = "release" ∨ lv = "production" then .ok (true, "release")
      else .ok (true, "release")
    | none => .ok (true, "release")

/-- `buildOpts` from the source: packages the resolved mode into the record
`{cargoTargetDirName, cargoProfile, wasmPackProfile}`. -/
def buildOpts (env : Env) : Except JsErr BuildOpts :=
  (modeResolve env).map fun m =>
    ⟨if m.1 then "release" else "debug", if m.1 then "--release" else "--debug", m.2⟩

/-- Whether an `Except` carries a success. -/
def exceptIsOk {α : Type} : Except JsErr α → Bool
  | .ok _ => true
  | .error _ => false

/-- The `wasmPackProfile` field of a successful `buildOpts` result (empty
string when `buildOpts` throws; only consulted in the success case). -/
def wasmPackProfileOf (env : Env) : String :=
  match buildOpts env with
  | .ok bo => bo.wasmPackProfile
  | .error _ => ""

/-! ## Crate manifest and `crateTypeCheck` -/

/-- A parsed TOML value as the JS code observes it (only string equality
against "cdylib" and array-ness are consulted). -/
inductive JsVal
  | strV (s : String)
  | arrV (xs : List JsVal)
  | other

/-- JS strict equality of an array element against the string "cdylib"
(as evaluated by `includes`). -/
def isCdylibStr : JsVal → Bool
  | .strV s => s == "cdylib"
  | _ => false

/-- The `lib` table of the crate manifest: the `crate-type` key, if present,
holds some TOML value. -/
structure LibSection where
  crateType : Option JsVal

/-- The parsed `Cargo.toml` as consulted by the plugin: the optional `lib`
table and `package.name`. -/
structure CargoConfig where
  lib : Option LibSection
  packageName : String

/-- `crateTypeCheck` from the source: throws unless the manifest has a `lib`
table whose `crate-type` is an array containing `"cdylib"`; a passing
manifest is returned unchanged. -/
def crateTypeCheck (c : CargoConfig) : Except JsErr CargoConfig :=
  match c.lib with
  | none => .error (.thrown "The `crate-type` in Cargo.toml should be `cdylib`")
  | some l =>
    match l.crateType with
    | some (.arrV xs) =>
      if xs.any isCdylibStr then .ok c
      else .error (.thrown "The `crate-type` in Cargo.toml should be `cdylib`")
    | _ => .error (.thrown "The `crate-type` in Cargo.toml should be `cdylib`")

/-- The spec's validity condition on a manifest, written from the spec's
words for comparison: a `lib` section is present, its crate-type is a list,
and the list includes `"cdylib"`. -/
def specManifestOk (c : CargoConfig) : Bool :=
  match c.lib with
  | none => false
  | some l =>
    match l.crateType with
    | some (.arrV xs) => xs.any isCdylibStr
    | _ => false

/-! ## Build strategies -/

/-- The build-result descriptor incrementally assembled by `parse`. -/
structure BuildResult where
  outDir : String
  rustName : String
  cargoDir : String
deriving DecidableEq

/-- `wasmPackBuild` from the source.  The help probe (`wasm-pack build
--help`) is executed FIRST; `buildOpts` (which may throw on a bad
`WASM_PACK_PROFILE`) only runs after it.  The argument list is the
subcommand (`build` when the probe succeeded, `init` otherwise), then
`-m no-install` exactly when `has_deps`, then the target (`nodejs` for the
node bundle target, `bundler` otherwise — never `web`) and finally the
resolved profile flag; the command runs with the crate directory as cwd. -/
def wasmPackBuild (env : Env) (opts : AssetOptions) (packageName cargoDir : String)
    (has_deps : Bool) (w : World) : List Event × Except JsErr BuildResult :=
  let probe := Event.exec "wasm-pack" ["build", "--help"] none
  let hasBuildCommand := w.execOk "wasm-pack" ["build", "--help"]
  match buildOpts env with
  | .error e => ([probe], .error e)
  | .ok bo =>
    let args :=
      if hasBuildCommand then
        (if has_deps then ["build", "-m", "no-install"] else ["build"])
      else
        (if has_deps then ["init", "-m", "no-install"] else ["init"])
    let args := args ++ (if opts.target = "node" then ["--target", "nodejs"] else ["--target", "bundler"])
    let args := args ++ ["--" ++ bo.wasmPackProfile]
    let run := Event.exec "wasm-pack" args (some cargoDir)
    if w.execOk "wasm-pack" args then
      ([probe, run], .ok ⟨joinPath cargoDir "pkg", dashToUnderscore packageName, cargoDir⟩)
    else
      ([probe, run], .error (.execFail "wasm-pack" args))

/-- The body of the `try` block of `rawBuild`: resolve the build options,
run `cargo build --target wasm32-unknown-unknown <profile>`, query
`cargo metadata --format-version 1` and parse its JSON, then run
`wasm-bindgen` on the produced wasm file.  (The `outDir` computation joins
the metadata `target_directory` twice, faithfully to the source.) -/
def rawBuildTry (env : Env) (opts : AssetOptions) (packageName cargoDir : String)
    (w : World) : List Event × Except JsErr BuildResult :=
  match buildOpts env with
  | .error e => ([], .error e)
  | .ok bo =>
    let args1 := ["build", "--target", RUST_TARGET, bo.cargoProfile]
    let ev1 := Event.exec "cargo" args1 (some cargoDir)
    if w.execOk "cargo" args1 then
      let args2 := ["metadata", "--format-version", "1"]
      let ev2 := Event.exec "cargo" args2 (some cargoDir)
      if w.execOk "cargo" args2 then
        if w.metadataParseOk then
          let cargoTargetDir := w.targetDirectory
          let outDir := joinPath (joinPath cargoTargetDir RUST_TARGET) cargoTargetDir
          let rustName := dashToUnderscore packageName
          let args3 := [joinPath outDir (rustName ++ ".wasm"), "--out-dir", outDir,
                        "--target", if opts.target = "node" then "nodejs" else "web"]
          let ev3 := Event.exec "wasm-bindgen" args3 (some cargoDir)
          if w.execOk "wasm-bindgen" args3 then
            ([ev1, ev2, ev3], .ok ⟨outDir, rustName, cargoDir⟩)
          else
            ([ev1, ev2, ev3], .error (.execFail "wasm-bindgen" args3))
        else ([ev1, ev2], .error .jsonParseFail)
      else ([ev1, ev2], .error (.execFail "cargo" args2))
    else ([ev1], .error (.execFail "cargo" args1))

/-- `rawBuild` from the source: the whole strategy body runs inside a
`try`/`catch` whose handler throws the fixed remediation string, discarding
the underlying failure. -/
def rawBuild (env : Env) (opts : AssetOptions) (packageName cargoDir : String)
    (w : World) : List Event × Except JsErr BuildResult :=
  match rawBuildTry env opts packageName cargoDir w with
  | (evs, .error _) =>
    (evs, .error (.thrown "Building failed... Please install wasm-pack and try again."))
  | ok => ok

/-- The strategy dispatch in `parse`: wasm-pack present runs `wasmPackBuild`
(with `has_deps` the conjunction of the other two probes); otherwise cargo
plus wasm-bindgen runs `rawBuild`; otherwise the matching install hint is
thrown with no build subprocess spawned. -/
def selectBuild (env : Env) (opts : AssetOptions) (packageName cargoDir : String)
    (avail : Avail) (w : World) : List Event × Except JsErr BuildResult :=
  if avail.has_wasm_pack then
    wasmPackBuild env opts packageName cargoDir (avail.has_cargo && avail.has_wasmbindgen) w
  else if avail.has_cargo then
    if avail.has_wasmbindgen then
      rawBuild env opts packageName cargoDir w
    else
      ([], .error (.thrown "Please install wasm-pack"))
  else
    ([], .error (.thrown "Please install Cargo for Rust"))

/-! ## Output-path post-processing (`wasmPostProcess`) -/

/-- The dotted-prefix step of `getPath`: when the first character of the
relative path is not a dot, prepend the explicit relative marker. -/
def ensureDotted (l : List Char) : List Char :=
  if l.head? = some '.' then l else '.' :: '/' :: l

/-- The normalization performed on each relative path by `getPath`: add the
dotted prefix when missing, then apply the JS `replace` of a backslash by a
slash (first occurrence only). -/
def normalizePath (p : String) : String :=
  String.mk (replaceFirstBackslash (ensureDotted p.data))

/-- `getPath` from `wasmPostProcess`: relativize the joined output path
against the directory of the requesting asset (`this.name`), then normalize.
The host `path.relative` is passed in explicitly since its output is
host-dependent. -/
def getPath (pathRelative : String → String → String) (name outDir relative : String) : String :=
  normalizePath (pathRelative (dirname name) (joinPath outDir relative))

/-- The four paths recorded on the asset by `wasmPostProcess`. -/
structure OutputPaths where
  jsPath : String
  jsAltPath : String
  wasmPath : String
  depsPath : String
deriving DecidableEq

/-- `wasmPostProcess` from the source: resolve the build options again,
compute the three relative artifact paths with `getPath`, then
unconditionally run `cargo metadata --format-version 1` (cwd the crate
directory) to locate the target directory for the dependency-file path
`<target_directory>/wasm32-unknown-unknown/<cargoTargetDirName>/<name>.d`. -/
def wasmPostProcess (env : Env) (name : String)
    (pathRelative : String → String → String) (r : BuildResult) (w : World) :
    List Event × Except JsErr OutputPaths :=
  match buildOpts env with
  | .error e => ([], .error e)
  | .ok bo =>
    let jsPath := getPath pathRelative name r.outDir (r.rustName ++ ".js")
    let jsAltPath := getPath pathRelative name r.outDir (r.rustName ++ "_bg.js")
    let wasmPath := getPath pathRelative name r.outDir (r.rustName ++ "_bg.wasm")
    let args := ["metadata", "--format-version", "1"]
    let ev := Event.exec "cargo" args (some r.cargoDir)
    if w.execOk "cargo" args then
      if w.metadataParseOk then
        ([ev], .ok ⟨jsPath, jsAltPath, wasmPath,
          joinPath (joinPath (joinPath w.targetDirectory RUST_TARGET) bo.cargoTargetDirName)
            (r.rustName ++ ".d")⟩)
      else ([ev], .error .jsonParseFail)
    else ([ev], .error (.execFail "cargo" args))

/-! ## Asset classification, `parse`, `generate`, `collectDependencies` -/

/-- `isTargetRust` from the source: the asset is named `Cargo.toml` or has
the `.rs` extension. -/
def isTargetRust (name : String) : Bool :=
  basename name == "Cargo.toml" || extname name == ".rs"

/-- `isNormalTOML` from the source: the asset has the `.toml` extension. -/
def isNormalTOML (name : String) : Bool :=
  extname name == ".toml"

/-- What `parse` produces: for a non-Rust TOML asset, the generic TOML
parse of the file contents; for a Rust target, the assembled build result
and recorded output paths. -/
inductive ParseOutcome
  | tomlValue (v : JsVal)
  | built (r : BuildResult) (paths : OutputPaths)

/-- `parse` from the source.  A non-Rust asset is either parsed generically
as TOML (when it has the `.toml` extension) or rejected.  A Rust target
first passes `crateTypeCheck` (before any probe or subprocess), then the
toolchain is probed and exactly one build strategy runs, then
`wasmPostProcess` records the output paths.  `tomlParse` stands for the
external generic TOML parser applied to the file contents, and
`cargoConfig`/`cargoDir` for the results of the host's config loading. -/
def parse (env : Env) (opts : AssetOptions) (name : String) (tomlParse : String → JsVal)
    (code : String) (cargoConfig : CargoConfig) (cargoDir : String) (avail : Avail)
    (pathRelative : String → String → String) (w : World) :
    List Event × Except JsErr ParseOutcome :=
  if isTargetRust name then
    match crateTypeCheck cargoConfig with
    | .error e => ([], .error e)
    | .ok cfg =>
      match selectBuild env opts cfg.packageName cargoDir avail w with
      | (evs, .error e) => (evs, .error e)
      | (evs, .ok r) =>
        match wasmPostProcess env name pathRelative r w with
        | (evs2, .error e) => (evs ++ evs2, .error e)
        | (evs2, .ok paths) => (evs ++ evs2, .ok (.built r paths))
  else if isNormalTOML name then
    ([], .ok (.tomlValue (tomlParse code)))
  else
    ([], .error (.thrown (name ++ " is not valid Rust file or Cargo.toml")))

/-- A generated output entry (`{type: 'js', value}`). -/
structure GeneratedAsset where
  type : String
  value : String

/-- The ASCII single-quote character, as a string. -/
def sq : String := String.mk [Char.ofNat 39]

/-- `generate` from the source: for a Rust target, emit one js-typed asset
whose value is the loader file's text when bundling for node, and otherwise
the two-line module that imports the wasm binary and re-exports the
background glue (single-quoted specifiers); for any other asset, throw.
`readFile` stands for the host's file reading. -/
def generate (opts : AssetOptions) (name : String) (readFile : String → String)
    (jsPath jsAltPath wasmPath : String) : Except JsErr (List GeneratedAsset) :=
  if isTargetRust name then
    let value :=
      if opts.target = "node" then readFile jsPath
      else "import * as wasm from " ++ sq ++ wasmPath ++ sq ++ "\n" ++
           "export * from " ++ sq ++ jsAltPath ++ sq ++ "\n"
    .ok [⟨"js", value⟩]
  else
    .error (.thrown (name ++ " is not valid Rust file or Cargo.toml"))

/-- The dependency-list computation of `collectDependencies` (line 310 of
the source): trim the `.d` file contents, split on every colon and take the
SECOND piece (the text between the first and second colon; with no colon
the JS dereference of `undefined` faults, modelled as `none`), split that
at word-boundary spaces, then trim each piece and delete its first
escaped-space pair. -/
def extractDeps (contents : String) : Option (List String) :=
  match charsSplitOn ':' [] (charsTrim contents.data) with
  | _ :: seg :: _ =>
    some ((splitBoundaryAux none [] seg).map
      (fun cs => String.mk (dropFirstEscapedSpace (charsTrim cs))))
  | _ => none

/-- `collectDependencies` from the source: for a non-Rust asset nothing is
collected; for a Rust target every extracted path except those strictly
equal to the asset's own name is registered, in order. -/
def collectDependencies (name contents : String) : Option (List String) :=
  if isTargetRust name then
    (extractDeps contents).map (List.filter (fun d => d != name))
  else
    some []

/-! ## Concrete worlds and counting helpers used in the statements -/

/-- A world in which every subprocess succeeds. -/
def wOK : World := ⟨fun _ _ => true, "tdir", true⟩

/-- A world in which exactly the `wasm-pack` subprocesses succeed — the
observable behaviour of a host with wasm-pack installed but no cargo
(`execFile` of a missing command rejects). -/
def wNoCargo : World := ⟨fun cmd _ => cmd == "wasm-pack", "tdir", true⟩

/-- Number of backslash separators in a string. -/
def backslashCount (s : String) : Nat := s.data.count '\\'

/-! ## Supporting lemmas -/

/-- `crateTypeCheck` succeeds (returning its input unchanged) exactly on
manifests satisfying the spec's validity condition, and otherwise throws
the fixed crate-type message. -/
theorem crateTypeCheck_spec (c : CargoConfig) :
    crateTypeCheck c =
      if specManifestOk c then .ok c
      else .error (.thrown "The `crate-type` in Cargo.toml should be `cdylib`") := by
  obtain ⟨lib, pkg⟩ := c
  cases lib with
  | none => rfl
  | some l =>
    obtain ⟨ct⟩ := l
    cases ct with
    | none => rfl
    | some v =>
      cases v with
      | strV s => rfl
      | other => rfl
      | arrV xs =>
        by_cases h : xs.any isCdylibStr <;>
          simp [crateTypeCheck, specManifestOk, h]

/-- The first-occurrence backslash replacement removes exactly one
backslash (and none when there is none to remove). -/
theorem replaceFirstBackslash_count (l : List Char) :
    (replaceFirstBackslash l).count '\\' = l.count '\\' - 1 := by
  induction l with
  | nil => rfl
  | cons c cs ih =>
    by_cases h : c = '\\'
    · subst h
      simp [replaceFirstBackslash, List.count_cons]
    · simp [replaceFirstBackslash, h, List.count_cons, ih]

/-- The dotted-prefix step introduces no backslash. -/
theorem ensureDotted_count (l : List Char) :
    (ensureDotted l).count '\\' = l.count '\\' := by
  unfold ensureDotted
  by_cases h : l.head? = some '.' <;> simp [h, List.count_cons]

/-- Every normalized output path starts with a dot. -/
theorem normalizePath_head (p : String) :
    (normalizePath p).data.head? = some '.' := by
  unfold normalizePath ensureDotted
  by_cases h : p.data.head? = some '.'
  · obtain ⟨t, ht⟩ : ∃ t, p.data = '.' :: t := by
      cases hd : p.data with
      | nil => rw [hd] at h; simp at h
      | cons a t =>
        rw [hd] at h
        simp at h
        exact ⟨t, by rw [h]⟩
    simp [h, ht, replaceFirstBackslash]
  · simp [h, replaceFirstBackslash]

/-- The wasm-pack strategy's first event is always the subcommand help
probe, whatever else happens. -/
theorem wasmPackBuild_probe_first (env : Env) (opts : AssetOptions) (pkg dir : String)
    (has_deps : Bool) (w : World) :
    (wasmPackBuild env opts pkg dir has_deps w).fst.take 1 =
      [Event.exec "wasm-pack" ["build", "--help"] none] := by
  cases hbo : buildOpts env with
  | error e => simp [wasmPackBuild, hbo]
  | ok bo =>
    simp only [wasmPackBuild, hbo]
    repeat' split
    all_goals rfl

/-! ## Claim theorems -/

/-- C1 counterexample: the claim says dependency extraction unescapes
escaped spaces, turning every escaped space back into a literal space, so
on a manifest listing the single path `my\ file.rs` it would have to yield
`my file.rs`.  The code's `replace` deletes the backslash AND the space
(first occurrence, empty replacement string), yielding `myfile.rs`
instead. -/
theorem C1_counterexample :
    collectDependencies "x.rs" "out: my\\ file.rs" = some ["myfile.rs"] ∧
    collectDependencies "x.rs" "out: my\\ file.rs" ≠ some ["my file.rs"] := by
  exact ⟨rfl, by decide⟩

/-- C1 amended: dependency extraction takes the segment of the trimmed
manifest between the first and second colon, splits it at spaces
immediately preceded by a word character, trims each entry and deletes its
first escaped-space pair outright (both characters removed, not restored to
a literal space), and yields every resulting path excluding exactly the
entries equal to the requesting asset's own path; on the claim's example
manifest listing a.rs, b.rs, self.rs with requesting asset self.rs the
result is [a.rs, b.rs]; an escaped space collapses (`my\ file.rs` gives
`myfile.rs`); text after a second colon is discarded (and a trailing space
in the kept segment yields an empty entry). -/
theorem C1_amended (name contents : String) :
    name ∉ (collectDependencies name contents).getD [] ∧
    collectDependencies "self.rs" "out: a.rs b.rs self.rs" = some ["a.rs", "b.rs"] ∧
    collectDependencies "x.rs" "out: my\\ file.rs" = some ["myfile.rs"] ∧
    collectDependencies "x.rs" "t: a.rs : b.rs" = some ["a.rs", ""] := by
  refine ⟨?_, rfl, rfl, rfl⟩
  unfold collectDependencies
  by_cases h : isTargetRust name
  · simp only [h, if_true]
    cases hx : extractDeps contents with
    | none => simp
    | some l => simp [List.mem_filter]
  · simp [h]

/-- C2 counterexample: the claim says all separators are normalized to
forward slashes regardless of host convention.  On a host whose
`path.relative` yields a backslash-separated relative path, the code's
`replace` rewrites only the first backslash, so a second separator
survives in the output. -/
theorem C2_counterexample :
    normalizePath "..\\pkg\\mycrate_bg.wasm" = "../pkg\\mycrate_bg.wasm" ∧
    normalizePath "..\\pkg\\mycrate_bg.wasm" ≠ "../pkg/mycrate_bg.wasm" ∧
    '\\' ∈ (normalizePath "..\\pkg\\mycrate_bg.wasm").data := by
  refine ⟨rfl, by decide, by decide⟩

/-- C2 amended: output-path computation relativizes against the requesting
asset's directory and prepends an explicit `./` when the relative path does
not already start with a dot (so every produced path starts with a dot),
but it replaces only the FIRST backslash with a forward slash — exactly one
backslash is removed and any further host-convention separators remain; on
a POSIX host the claim's example (crate output under `pkg` relative to the
asset's `src` directory) yields `../pkg/mycrate_bg.wasm` unchanged. -/
theorem C2_amended (p : String) (rel : String → String → String)
    (name outDir relFile : String) :
    (normalizePath p).data.head? = some '.' ∧
    backslashCount (normalizePath p) = backslashCount p - 1 ∧
    (getPath rel name outDir relFile).data.head? = some '.' ∧
    getPath posixRelative "/app/src/index.js" "/app/pkg" "mycrate_bg.wasm" =
      "../pkg/mycrate_bg.wasm" ∧
    normalizePath "pkg/mycrate.js" = "./pkg/mycrate.js" := by
  refine ⟨normalizePath_head p, ?_, normalizePath_head _, rfl, rfl⟩
  show (String.mk (replaceFirstBackslash (ensureDotted p.data))).data.count '\\' =
    p.data.count '\\' - 1
  rw [show (String.mk (replaceFirstBackslash (ensureDotted p.data))).data =
    replaceFirstBackslash (ensureDotted p.data) from rfl]
  rw [replaceFirstBackslash_count, ensureDotted_count]

/-- C3 counterexample: the claim says an unrecognized WASM_PACK_PROFILE
value raises the configuration error before any subprocess runs.  With
wasm-pack present, the strategy executes the `wasm-pack build --help`
probe subprocess FIRST and only then resolves the build options, so at the
moment the error is thrown the event trace already contains one exec. -/
theorem C3_counterexample :
    selectBuild ⟨some "bogus", none⟩ ⟨"node"⟩ "demo" "crate" ⟨true, true, true⟩ wOK =
      ([Event.exec "wasm-pack" ["build", "--help"] none],
       .error (.thrown "bogus (set by WASM_PACK_PROFILE) is not a recognized wasm-pack build profile")) :=
  rfl

/-- C3 amended: the mode resolver maps WASM_PACK_PROFILE case-insensitively
(dev/debug to non-release mode with the dev profile, release to release,
profiling to release mode with the profiling profile) and any other value
throws a fatal error naming the offending value — but the error is raised
when the build options are resolved inside the selected strategy, which in
the wasm-pack strategy happens only after the `wasm-pack build --help`
probe subprocess has already run (the probe is always the first event), not
before any subprocess. -/
theorem C3_amended (v : String) (ne : Option String) (opts : AssetOptions)
    (pkg dir : String) (w : World) :
    modeResolve ⟨some v, ne⟩ =
      (if jsToLower v = "dev" ∨ jsToLower v = "debug" then .ok (false, "dev")
       else if jsToLower v = "release" then .ok (true, "release")
       else if jsToLower v = "profiling" then .ok (true, "profiling")
       else .error (.thrown (v ++ " (set by WASM_PACK_PROFILE) is not a recognized wasm-pack build profile"))) ∧
    (selectBuild ⟨some v, ne⟩ opts pkg dir ⟨true, true, true⟩ w).fst.take 1 =
      [Event.exec "wasm-pack" ["build", "--help"] none] ∧
    (if jsToLower v = "dev" ∨ jsToLower v = "debug" ∨ jsToLower v = "release" ∨
        jsToLower v = "profiling" then True
     else
       selectBuild ⟨some v, ne⟩ opts pkg dir ⟨true, true, true⟩ w =
         ([Event.exec "wasm-pack" ["build", "--help"] none],
          .error (.thrown (v ++ " (set by WASM_PACK_PROFILE) is not a recognized wasm-pack build profile")))) := by
  refine ⟨rfl, ?_, ?_⟩
  · have hp := wasmPackBuild_probe_first ⟨some v, ne⟩ opts pkg dir (true && true) w
    simpa [selectBuild] using hp
  · split
    · trivial
    · next h =>
      push_neg at h
      obtain ⟨h1, h2, h3, h4⟩ := h
      have hbo : buildOpts ⟨some v, ne⟩ =
          .error (.thrown (v ++ " (set by WASM_PACK_PROFILE) is not a recognized wasm-pack build profile")) := by
        simp [buildOpts, modeResolve, h1, h2, h3, h4, Except.map]
      simp [selectBuild, wasmPackBuild, hbo]

/-- C4: with WASM_PACK_PROFILE absent, NODE_ENV maps case-insensitively
(dev/development to non-release mode with the dev profile, everything else
— including release/production and any unrecognized value, which is
silently ignored — to release mode with the release profile) and never
raises an error; with neither variable set the resolver yields release
mode and the release profile. -/
theorem C4_node_env_fallback (s : String) :
    modeResolve ⟨none, some s⟩ =
      .ok (if jsToLower s = "dev" ∨ jsToLower s = "development"
           then (false, "dev") else (true, "release")) ∧
    modeResolve ⟨none, none⟩ = .ok (true, "release") ∧
    buildOpts ⟨none, none⟩ = .ok ⟨"release", "--release", "release"⟩ := by
  refine ⟨?_, rfl, rfl⟩
  by_cases h1 : jsToLower s = "dev" ∨ jsToLower s = "development"
  · simp [modeResolve, h1]
  · by_cases h2 : jsToLower s = "release" ∨ jsToLower s = "production" <;>
      simp [modeResolve, h1, h2]

/-- C5: strategy selection is a total function of the three probe results —
whenever wasm-pack is present the wasm-pack strategy runs (with the
no-install hint tied to the other two probes), regardless of the other
flags; with wasm-pack absent, cargo present and wasm-bindgen absent the
build fails naming wasm-pack as the tool to install; and whenever wasm-pack
is absent and either cargo or wasm-bindgen is missing, the failure is
immediate (empty event trace, so no build subprocess was attempted) with a
message naming the tool to install. -/
theorem C5_strategy_selection (env : Env) (opts : AssetOptions) (pkg dir : String)
    (avail : Avail) (w : World) :
    (if avail.has_wasm_pack then
        selectBuild env opts pkg dir avail w =
          wasmPackBuild env opts pkg dir (avail.has_cargo && avail.has_wasmbindgen) w
      else True) ∧
    selectBuild env opts pkg dir ⟨false, true, false⟩ w =
      ([], .error (.thrown "Please install wasm-pack")) ∧
    (if avail.has_wasm_pack = false ∧ (avail.has_cargo = false ∨ avail.has_wasmbindgen = false) then
        selectBuild env opts pkg dir avail w =
          ([], .error (.thrown
            (if avail.has_cargo then "Please install wasm-pack"
             else "Please install Cargo for Rust")))
      else True) := by
  obtain ⟨wp, hc, hb⟩ := avail
  refine ⟨?_, rfl, ?_⟩ <;> cases wp <;> cases hc <;> cases hb <;> simp [selectBuild]

/-- C6: whenever the wasm-pack strategy runs (wasm-pack present, build
options resolved), its build invocation's argument list is the subcommand
(`build` when the `wasm-pack build --help` probe succeeds, `init`
otherwise), then `-m no-install` exactly when both cargo and wasm-bindgen
are also present, then `--target nodejs` for a node bundle target and
`--target bundler` otherwise (never `web`), with the resolved profile flag
appended last; the command runs with the crate directory as its working
directory.  The concrete conjunct shows a run: all tools present,
non-node target, default profile. -/
theorem C6_wasm_pack_args (env : Env) (opts : AssetOptions) (pkg dir : String)
    (avail : Avail) (w : World) :
    (if (avail.has_wasm_pack && exceptIsOk (buildOpts env)) = true then
        (selectBuild env opts pkg dir avail w).fst =
          [Event.exec "wasm-pack" ["build", "--help"] none,
           Event.exec "wasm-pack"
             ((if w.execOk "wasm-pack" ["build", "--help"] then ["build"] else ["init"]) ++
              (if avail.has_cargo && avail.has_wasmbindgen then ["-m", "no-install"] else []) ++
              ["--target", if opts.target = "node" then "nodejs" else "bundler",
               "--" ++ wasmPackProfileOf env])
             (some dir)]
      else True) ∧
    (selectBuild ⟨none, none⟩ ⟨"browser"⟩ "my-crate" "dir" ⟨true, true, true⟩ wOK).fst =
      [Event.exec "wasm-pack" ["build", "--help"] none,
       Event.exec "wasm-pack" ["build", "-m", "no-install", "--target", "bundler", "--release"]
         (some "dir")] := by
  refine ⟨?_, rfl⟩
  cases hbo : buildOpts env with
  | error e =>
    simp [exceptIsOk, hbo]
  | ok bo =>
    obtain ⟨wp, hc, hb⟩ := avail
    cases wp
    · simp [exceptIsOk, hbo]
    · simp only [exceptIsOk, hbo, Bool.and_true, Bool.true_and, if_true]
      simp only [selectBuild, wasmPackBuild, hbo, wasmPackProfileOf]
      by_cases h1 : w.execOk "wasm-pack" ["build", "--help"] <;>
        cases hc <;> cases hb <;>
        by_cases h2 : opts.target = "node" <;>
        simp [h1, h2] <;>
        repeat' split <;>
        simp

/-- C7: the degraded fallback strategy (raw cargo plus wasm-bindgen) either
succeeds or fails with the single uniform remediation message telling the
user to install wasm-pack — every failure of any of its steps (build-option
resolution, cargo build, cargo metadata exec or JSON parse, wasm-bindgen)
is caught by its try/catch and re-surfaced as that one thrown string,
discarding the underlying reason. -/
theorem C7_raw_build_uniform_error (env : Env) (opts : AssetOptions)
    (pkg dir : String) (w : World) :
    (∃ r, (rawBuild env opts pkg dir w).snd = Except.ok r) ∨
    (rawBuild env opts pkg dir w).snd =
      Except.error (JsErr.thrown "Building failed... Please install wasm-pack and try again.") := by
  cases h : rawBuildTry env opts pkg dir w with
  | mk evs res =>
    cases res with
    | error e => right; simp [rawBuild, h]
    | ok r => left; exact ⟨r, by simp [rawBuild, h]⟩

/-- C8: a Rust-target build fails with the fixed crate-type message exactly
when the manifest lacks a `lib` section, or its crate-type is not a list,
or the list lacks `"cdylib"`; the failure happens with an empty event trace
(no subprocess) and for every probe result (so before any toolchain
probing is consulted); a passing manifest is returned unchanged.  The
concrete conjuncts instantiate a passing and a failing manifest. -/
theorem C8_crate_type_check (c : CargoConfig) (env : Env) (opts : AssetOptions)
    (name code : String) (tp : String → JsVal) (dir : String) (avail : Avail)
    (rel : String → String → String) (w : World) :
    crateTypeCheck c =
      (if specManifestOk c then .ok c
       else .error (.thrown "The `crate-type` in Cargo.toml should be `cdylib`")) ∧
    (if specManifestOk c = false ∧ isTargetRust name = true then
        parse env opts name tp code c dir avail rel w =
          ([], .error (.thrown "The `crate-type` in Cargo.toml should be `cdylib`"))
      else True) ∧
    crateTypeCheck ⟨some ⟨some (.arrV [.strV "cdylib"])⟩, "demo"⟩ =
      .ok ⟨some ⟨some (.arrV [.strV "cdylib"])⟩, "demo"⟩ ∧
    parse ⟨none, none⟩ ⟨"node"⟩ "Cargo.toml" tp "" ⟨none, "demo"⟩ "d" ⟨true, true, true⟩ rel wOK =
      ([], .error (.thrown "The `crate-type` in Cargo.toml should be `cdylib`")) := by
  refine ⟨crateTypeCheck_spec c, ?_, rfl, rfl⟩
  split
  · next h =>
    obtain ⟨h1, h2⟩ := h
    have hct : crateTypeCheck c =
        .error (.thrown "The `crate-type` in Cargo.toml should be `cdylib`") := by
      rw [crateTypeCheck_spec, h1]
      rfl
    simp [parse, h2, hct]
  · trivial

/-- C9: output resolution always runs `cargo metadata --format-version 1`
(in the crate directory) — it is the only event of `wasmPostProcess`
whenever the build options resolve — so the dependency-file path requires
cargo; when that exec fails the stage fails, and the concrete conjunct
shows the full pipeline on a host with wasm-pack but no cargo: the
wasm-pack build itself succeeds (both wasm-pack events appear) and the
build still fails in post-processing on the cargo metadata exec. -/
theorem C9_metadata_required (env : Env) (name : String)
    (rel : String → String → String) (r : BuildResult) (w : World) :
    (if exceptIsOk (buildOpts env) = true then
        (wasmPostProcess env name rel r w).fst =
          [Event.exec "cargo" ["metadata", "--format-version", "1"] (some r.cargoDir)]
      else True) ∧
    (if exceptIsOk (buildOpts env) = true ∧
        w.execOk "cargo" ["metadata", "--format-version", "1"] = false then
        (wasmPostProcess env name rel r w).snd =
          .error (.execFail "cargo" ["metadata", "--format-version", "1"])
      else True) ∧
    parse ⟨none, none⟩ ⟨"node"⟩ "lib.rs" (fun _ => JsVal.other) ""
        ⟨some ⟨some (.arrV [.strV "cdylib"])⟩, "demo-crate"⟩ "crate" ⟨true, false, false⟩
        posixRelative wNoCargo =
      ([Event.exec "wasm-pack" ["build", "--help"] none,
        Event.exec "wasm-pack" ["build", "--target", "nodejs", "--release"] (some "crate"),
        Event.exec "cargo" ["metadata", "--format-version", "1"] (some "crate")],
       .error (.execFail "cargo" ["metadata", "--format-version", "1"])) := by
  refine ⟨?_, ?_, rfl⟩
  · cases hbo : buildOpts env with
    | error e => simp [exceptIsOk, hbo]
    | ok bo =>
      simp only [exceptIsOk, hbo, if_true]
      simp only [wasmPostProcess, hbo]
      repeat' split
      all_goals rfl
  · split
    · next h =>
      obtain ⟨h1, h2⟩ := h
      cases hbo : buildOpts env with
      | error e => rw [hbo] at h1; simp [exceptIsOk] at h1
      | ok bo => simp [wasmPostProcess, hbo, h2]
    · trivial

/-- C10: an asset that is a non-Rust `.toml` file (not named `Cargo.toml`
and without the `.rs` extension) parses successfully as generic TOML with
no build activity, while `generate` always throws the not-valid-Rust
message for it — so such an asset can never produce generated output.  The
concrete conjuncts instantiate the generic-config asset `conf.toml`. -/
theorem C10_non_rust_toml (name code : String) (tp : String → JsVal) (env : Env)
    (opts : AssetOptions) (c : CargoConfig) (dir : String) (avail : Avail)
    (rel : String → String → String) (w : World) (rf : String → String)
    (jsP aP wP : String) :
    (if isTargetRust name = false ∧ isNormalTOML name = true then
        parse env opts name tp code c dir avail rel w =
          ([], .ok (.tomlValue (tp code))) ∧
        generate opts name rf jsP aP wP =
          .error (.thrown (name ++ " is not valid Rust file or Cargo.toml"))
      else True) ∧
    parse env opts "conf.toml" tp code c dir avail rel w =
      ([], .ok (.tomlValue (tp code))) ∧
    generate opts "conf.toml" rf jsP aP wP =
      .error (.thrown "conf.toml is not valid Rust file or Cargo.toml") := by
  refine ⟨?_, rfl, rfl⟩
  split
  · next h => exact ⟨by simp [parse, h.1, h.2], by simp [generate, h.1]⟩
  · trivial

end WasmPlugin
